import Mathlib

/-!
Shallow embedding of the download-orchestration and storage-lifecycle
subsystem of `src/bot.py` (a Discord social-media downloader bot).

Conventions of the embedding:
* The SQLite catalog becomes an explicit `DB` value: the `downloads` table is
  a list of `DownloadRecord` (append-only, `next_id` models AUTOINCREMENT
  starting at 1), the `user_stats` table is an association list keyed by
  `user_id`.
* The filesystem becomes an association list from path to byte size (`FS`);
  `os.path.exists`, `os.path.getsize`, `os.remove` become `fs_exists`,
  `getsize`, `fs_remove`.
* Calendar dates are `Nat` day numbers, timestamps are `Int` seconds.
* yt-dlp (the external extraction engine) is an oracle
  `Engine : YdlOpts -> Except String ExtractOk`; Discord delivery
  (`interaction.followup.send`) is an oracle `Except String Unit`.
* Python exceptions become `Except String` / explicit failure constructors;
  the string carries the exception message, mirroring `str(e)`.
* Console / UI-only effects (rich prints, Discord embeds) are irrelevant to
  state; the truncated-error console logs of the YouTube fallback chain are
  kept explicitly (as `logs`) because the spec talks about them.
-/

namespace Bot

/-! ### Configuration (`Config` class, src/bot.py lines 40-122)

Only the fields the specified subsystem reads are modelled; Discord token,
admin ids, rate-limit-per-hour (never used by the code) and the raw yt-dlp
option dictionary entries that are opaque engine knobs (headers, retries,
timeouts, cookie file, output template) are omitted. -/
structure Config where
  MAX_FILE_SIZE_MB : Nat
  MAX_DOWNLOADS_PER_DAY : Nat
  AUTO_CLEANUP_HOURS : Nat
deriving DecidableEq

/-- The environment-variable defaults: 25 MB, 50 downloads/day, 1 hour. -/
def defaultConfig : Config :=
  { MAX_FILE_SIZE_MB := 25, MAX_DOWNLOADS_PER_DAY := 50, AUTO_CLEANUP_HOURS := 1 }

/-! ### Filesystem model -/

/-- The local filesystem: an association list path -> byte size. -/
abbrev FS := List (String × Nat)

/-- `os.path.exists`. -/
def fs_exists (fs : FS) (p : String) : Bool :=
  fs.any (fun e => e.1 == p)

/-- `os.path.getsize` (0 if absent; the code always guards with `exists`). -/
def getsize (fs : FS) (p : String) : Nat :=
  ((fs.find? (fun e => e.1 == p)).map (fun e => e.2)).getD 0

/-- `os.remove`. -/
def fs_remove (fs : FS) (p : String) : FS :=
  fs.filter (fun e => !(e.1 == p))

/-! ### String helpers used by the source (`os.path` functions, slicing) -/

/-- Python string slicing `s[:n]` (used for `str(e)[:100]`). -/
def truncate (n : Nat) (s : String) : String :=
  String.mk (s.toList.take n)

/-- Python `str.lower` (character-wise). -/
def lower (s : String) : String :=
  String.mk (s.toList.map Char.toLower)

/-- Python `str.startswith`. -/
def starts_with (s pre : String) : Bool :=
  pre.toList.isPrefixOf s.toList

/-- Characters of the basename: scan, restarting after every slash. -/
def basename_chars : List Char → List Char → List Char
  | [], acc => acc.reverse
  | c :: rest, acc =>
      if c = '/' then basename_chars rest []
      else basename_chars rest (c :: acc)

/-- `os.path.basename`: the part after the last slash. -/
def basename (p : String) : String :=
  String.mk (basename_chars p.toList [])

/-- Index of the last occurrence of `c` in `cs`, if any. -/
def lastIdx (cs : List Char) (c : Char) : Option Nat :=
  (List.range cs.length).foldl
    (fun acc i => if cs.getD i ' ' = c then some i else acc) none

/-- The base of `os.path.splitext`: drop the extension at the last dot of the
basename, provided that dot is inside the basename and preceded there by at
least one non-dot character (so a leading-dot name keeps its dots). -/
def splitext_base (p : String) : String :=
  let cs := p.toList
  let start := match lastIdx cs '/' with
    | some s => s + 1
    | none => 0
  match lastIdx cs '.' with
  | some d =>
      if start ≤ d ∧ (List.range (d - start)).any (fun k => !(cs.getD (start + k) ' ' == '.')) then
        String.mk (cs.take d)
      else p
  | none => p

/-- Python `needle in haystack` on strings. -/
def str_contains (hay needle : String) : Bool :=
  decide (List.IsInfix needle.toList hay.toList)

/-! ### Data model (SQLite schema, `init_database`, src/bot.py lines 143-177) -/

/-- Lifecycle status of a download record.  The schema declares a column
default of `pending` (`status TEXT DEFAULT 'pending'`). -/
inductive Status where
  | pending
  | downloaded
  | sent
deriving DecidableEq

/-- The column default of the `status` column in the `downloads` table. -/
def schemaDefaultStatus : Status := .pending

/-- One row of the `downloads` table. -/
structure DownloadRecord where
  id : Nat
  user_id : Nat
  user_name : String
  platform : String
  url : String
  filename : String
  file_path : String
  file_size : Nat
  status : Status
  download_time : Int
  sent_time : Option Int
  deleted : Bool
deriving DecidableEq

/-- One row of the `user_stats` table (keyed externally by `user_id`). -/
structure UserStats where
  user_name : String
  total_downloads : Nat
  downloads_today : Nat
  last_download_date : Option Nat
  joined_date : Int
deriving DecidableEq

/-- The whole SQLite catalog. -/
structure DB where
  downloads : List DownloadRecord
  next_id : Nat
  user_stats : List (Nat × UserStats)
deriving DecidableEq

/-- The catalog right after `init_database` on a fresh path
(AUTOINCREMENT ids start at 1). -/
def emptyDB : DB := { downloads := [], next_id := 1, user_stats := [] }

/-- Look up the `user_stats` row of a user. -/
def lookupStats (db : DB) (uid : Nat) : Option UserStats :=
  ((db.user_stats.find? (fun e => e.1 == uid)).map (fun e => e.2))

/-- `UPDATE`-or-insert of a single `user_stats` row (the primary key makes the
row unique, so `UPDATE ... WHERE user_id = ?` touches exactly it). -/
def upsertStats (l : List (Nat × UserStats)) (uid : Nat) (s : UserStats) :
    List (Nat × UserStats) :=
  if l.any (fun e => e.1 == uid) then
    l.map (fun e => if e.1 == uid then (uid, s) else e)
  else l ++ [(uid, s)]

/-- `downloads_today` of a user as `canDownload` sees it (absent row = 0). -/
def dayCount (db : DB) (uid : Nat) : Nat :=
  ((lookupStats db uid).map (fun s => s.downloads_today)).getD 0

/-- Stored last-download date of a user (absent row or NULL column = none). -/
def lastDate (db : DB) (uid : Nat) : Option Nat :=
  (lookupStats db uid).bind (fun s => s.last_download_date)

/-! ### StorageManager.log_download (src/bot.py lines 179-216) -/

/-- `StorageManager.log_download`: insert a `downloads` row with status
`downloaded`, then `INSERT OR IGNORE` the user row and update its counters:
`downloads_today` becomes `downloads_today + 1` when the stored
`last_download_date` equals today (SQL `NULL = x` is falsy, so a fresh row
takes the else branch) and `1` otherwise; `last_download_date` becomes today.
Returns the new catalog and `cursor.lastrowid`. -/
def log_download (db : DB) (fs : FS) (uid : Nat)
    (uname platform url filename file_path : String)
    (today : Nat) (now : Int) : DB × Nat :=
  let file_size := if fs_exists fs file_path then getsize fs file_path else 0
  let r : DownloadRecord :=
    { id := db.next_id, user_id := uid, user_name := uname, platform := platform,
      url := url, filename := filename, file_path := file_path,
      file_size := file_size, status := .downloaded, download_time := now,
      sent_time := none, deleted := false }
  let stats0 : UserStats :=
    match lookupStats db uid with
    | some s => s
    | none =>
        { user_name := uname, total_downloads := 0, downloads_today := 0,
          last_download_date := none, joined_date := now }
  let stats1 : UserStats :=
    { stats0 with
      total_downloads := stats0.total_downloads + 1,
      downloads_today :=
        if stats0.last_download_date = some today then stats0.downloads_today + 1
        else 1,
      last_download_date := some today }
  ({ downloads := db.downloads ++ [r], next_id := db.next_id + 1,
     user_stats := upsertStats db.user_stats uid stats1 }, db.next_id)

/-! ### StorageManager.mark_as_sent (src/bot.py lines 218-231) -/

/-- `StorageManager.mark_as_sent`: set status to `sent` and the sent
timestamp on the row with the given id (silently a no-op if absent). -/
def mark_as_sent (db : DB) (download_id : Nat) (now : Int) : DB :=
  { db with
    downloads := db.downloads.map (fun r =>
      if r.id = download_id then { r with status := .sent, sent_time := some now }
      else r) }

/-! ### StorageManager.cleanup_old_files (src/bot.py lines 233-267) -/

/-- The `WHERE download_time < ? AND deleted = 0` condition of the sweeper
query. -/
def expired (cutoff : Int) (r : DownloadRecord) : Bool :=
  decide (r.download_time < cutoff) && !r.deleted

/-- The `SELECT id, file_path FROM downloads WHERE download_time < ? AND
deleted = 0` of the sweeper. -/
def select_old (db : DB) (cutoff : Int) : List (Nat × String) :=
  (db.downloads.filter (expired cutoff)).map (fun r => (r.id, r.file_path))

/-- `UPDATE downloads SET deleted = 1 WHERE id = ?`. -/
def set_deleted (ds : List DownloadRecord) (fid : Nat) : List DownloadRecord :=
  ds.map (fun r => if r.id = fid then { r with deleted := true } else r)

/-- The for-loop body of `cleanup_old_files`: for each selected row, delete
the backing file if it exists (a missing file raises nothing thanks to the
`exists` guard), mark the row deleted, bump the counter. -/
def sweep (rows : List (Nat × String)) (ds : List DownloadRecord) (fs : FS)
    (n : Nat) : List DownloadRecord × FS × Nat :=
  match rows with
  | [] => (ds, fs, n)
  | (fid, p) :: rest =>
      let fs1 := if fs_exists fs p then fs_remove fs p else fs
      sweep rest (set_deleted ds fid) fs1 (n + 1)

/-- `StorageManager.cleanup_old_files`: records strictly older than
`now - hours_old` (default `Config.AUTO_CLEANUP_HOURS`) and not yet deleted
are swept; returns the new catalog, the new filesystem and the reclaimed
count.  (`clean_empty_dirs` only touches directories, which the `FS` model
does not represent.) -/
def cleanup_old_files (cfg : Config) (db : DB) (fs : FS) (now : Int)
    (hours_old : Option Nat) : DB × FS × Nat :=
  let hours := hours_old.getD cfg.AUTO_CLEANUP_HOURS
  let cutoff : Int := now - (hours : Int) * 3600
  let rows := select_old db cutoff
  let res := sweep rows db.downloads fs 0
  ({ db with downloads := res.1 }, res.2.1, res.2.2)

/-! ### StorageManager.get_user_stats / can_user_download
(src/bot.py lines 280-316) -/

/-- The snapshot dictionary returned by `get_user_stats`. -/
structure StatsView where
  total_downloads : Nat
  downloads_today : Nat
  max_per_day : Nat
  joined_date : Int
  remaining_today : Nat
deriving DecidableEq

/-- `StorageManager.get_user_stats`: pure read; an absent row yields zero
counts and `joined_date = now`.  `remaining_today` is
`max(0, limit - downloads_today)`, which is exactly truncated `Nat`
subtraction. -/
def get_user_stats (cfg : Config) (db : DB) (uid : Nat) (now : Int) : StatsView :=
  match lookupStats db uid with
  | some s =>
      { total_downloads := s.total_downloads, downloads_today := s.downloads_today,
        max_per_day := cfg.MAX_DOWNLOADS_PER_DAY, joined_date := s.joined_date,
        remaining_today := cfg.MAX_DOWNLOADS_PER_DAY - s.downloads_today }
  | none =>
      { total_downloads := 0, downloads_today := 0,
        max_per_day := cfg.MAX_DOWNLOADS_PER_DAY, joined_date := now,
        remaining_today := cfg.MAX_DOWNLOADS_PER_DAY - 0 }

/-- `StorageManager.can_user_download`: deny with a human-readable reason
when `downloads_today >= MAX_DOWNLOADS_PER_DAY`, else allow with an empty
reason.  Pure read, no catalog mutation (the function does not return a
catalog).  The Python reason text contains an apostrophe; it is rendered
here in an ASCII-safe paraphrase with identical structure. -/
def can_user_download (cfg : Config) (db : DB) (uid : Nat) (now : Int) :
    Bool × String :=
  if cfg.MAX_DOWNLOADS_PER_DAY ≤ (get_user_stats cfg db uid now).downloads_today
  then
    (false, "You have reached your daily limit (" ++
      toString cfg.MAX_DOWNLOADS_PER_DAY ++ " downloads). Try again tomorrow!")
  else (true, "")

/-! ### DownloadManager (src/bot.py lines 336-458) -/

/-- `DownloadManager.detect_platform`: classify a URL by lowercase substring
match against the fixed ordered marker list; unmatched URLs are `Unknown`. -/
def detect_platform (url : String) : String :=
  let u := lower url
  if str_contains u "youtube.com" || str_contains u "youtu.be" then "YouTube"
  else if str_contains u "instagram.com" then "Instagram"
  else if str_contains u "tiktok.com" then "TikTok"
  else if str_contains u "twitter.com" || str_contains u "x.com" then "Twitter/X"
  else if str_contains u "facebook.com" || str_contains u "fb.watch" then "Facebook"
  else if str_contains u "reddit.com" then "Reddit"
  else "Unknown"

/-- The yt-dlp option dictionary, restricted to the keys the specified
subsystem actually decides on: the format selector, which platform the
`extractor_args` are tuned for, and whether an FFmpeg audio-extraction
postprocessor is attached.  All other keys of `Config.YDL_OPTIONS`
(headers, retries, timeouts, output template, cookies) are opaque knobs of
the external engine and never read by this subsystem. -/
structure YdlOpts where
  format : String
  extractorArgsTag : String
  audioPostprocess : Bool
deriving DecidableEq

/-- The generic `format_map` of `get_ydl_options` (src/bot.py lines 420-425). -/
def format_map : List (String × String) :=
  [("video", "bv*+ba/b"), ("audio", "ba"),
   ("medium", "best[height<=720]/best"), ("small", "best[height<=480]/best")]

/-- `DownloadManager.get_youtube_format` (src/bot.py lines 441-449). -/
def get_youtube_format (format_choice : String) : String :=
  (((format_map.find? (fun e => e.1 == format_choice)).map (fun e => e.2)).getD
    "bv*+ba/b")

/-- `DownloadManager.get_ydl_options` (src/bot.py lines 389-439): start from
the base options, apply the platform-specific settings (YouTube: tuned
format plus youtube extractor args; Instagram and TikTok: format `best`
plus their extractor args; anything else: format `best`), then apply the
generic `format_map` entry for the choice, then the audio special case
(`bestaudio` plus the FFmpeg mp3 postprocessor). -/
def get_ydl_options (format_choice platform : String) : YdlOpts :=
  let base : YdlOpts :=
    { format := "", extractorArgsTag := "youtube", audioPostprocess := false }
  let o1 :=
    if platform = "YouTube" then
      { base with format := get_youtube_format format_choice,
                  extractorArgsTag := "youtube" }
    else if platform = "Instagram" then
      { base with format := "best", extractorArgsTag := "instagram" }
    else if platform = "TikTok" then
      { base with format := "best", extractorArgsTag := "tiktok" }
    else
      { base with format := "best" }
  let o2 :=
    match format_map.find? (fun e => e.1 == format_choice) with
    | some e => { o1 with format := e.2 }
    | none => o1
  if format_choice = "audio" then
    { o2 with format := "bestaudio", audioPostprocess := true }
  else o2

/-- The Method-2 option patch of `handle_youtube_download`
(src/bot.py lines 785-791): a lower-complexity format selector depending on
the original choice, all other options kept. -/
def alt_opts (o : YdlOpts) (format_choice : String) : YdlOpts :=
  if format_choice = "video" then { o with format := "best[height<=720]" }
  else if format_choice = "medium" then { o with format := "best[height<=480]" }
  else if format_choice = "small" then { o with format := "worst" }
  else o

/-- The Method-3 option patch of `handle_youtube_download`
(src/bot.py lines 810-816): force audio-only with an mp3 transcode. -/
def audio_opts (o : YdlOpts) : YdlOpts :=
  { o with format := "bestaudio", audioPostprocess := true }

/-! ### The external extraction engine and delivery collaborator -/

/-- What a successful `ydl.extract_info(url, download=True)` gives this
subsystem: the predicted output path (`ydl.prepare_filename(info)`), the
title, and the filesystem after the engine wrote its output. -/
structure ExtractOk where
  predicted : String
  title : String
  fsAfter : FS
deriving DecidableEq

/-- The external engine as an oracle: called with the options of the current
strategy, it either raises (with a message) or succeeds. -/
def Engine := YdlOpts → Except String ExtractOk

/-- Externally observable side effects of `send_file`, in program order. -/
inductive Event where
  | logDownload (id : Nat)
  | deliverFile (path : String)
  | markSent (id : Nat)
  | removeFile (path : String)
deriving DecidableEq

/-- Outcome of `send_file`: either the record id of the sent download, or
the message of the exception it raised. -/
inductive SendOutcome where
  | sent (id : Nat)
  | failed (msg : String)
deriving DecidableEq

/-- `send_file` result: outcome plus the catalog, filesystem and effect
trace it left behind. -/
structure SendResult where
  outcome : SendOutcome
  db : DB
  fs : FS
  events : List Event
deriving DecidableEq

/-- The fixed list of plausible alternative extensions probed by
`send_file` (src/bot.py line 846). -/
def probe_exts : List String := [".mp4", ".mkv", ".webm", ".mp3", ".m4a", ".m4v"]

/-- The file-location logic of `send_file` (src/bot.py lines 840-853): take
the predicted path if it exists, otherwise probe the fixed extension list
against the predicted base name; `none` means the
"Downloaded file not found" error. -/
def resolve_path (fs : FS) (predicted : String) : Option String :=
  if fs_exists fs predicted then some predicted
  else
    (probe_exts.map (fun e => splitext_base predicted ++ e)).find?
      (fun p => fs_exists fs p)

/-- The size-exceeded exception message (src/bot.py line 859). -/
def tooLargeMsg (cfg : Config) (file_size : Nat) : String :=
  "File too large (" ++ toString (file_size / 1024 / 1024) ++
  "MB). Discord limit is " ++ toString cfg.MAX_FILE_SIZE_MB ++
  "MB. Try lower quality."

/-- `FormatSelectionView.send_file` (src/bot.py lines 837-916): locate the
output file (raise "Downloaded file not found" if the probe fails); if its
size exceeds `MAX_FILE_SIZE_MB`, delete it and raise the size error before
any persistence; otherwise `log_download`, hand the file to Discord
(`delivery` oracle; on failure the exception is re-raised and neither
`mark_as_sent` nor the file deletion runs), then `mark_as_sent` and delete
the local file. -/
def send_file (cfg : Config) (db : DB) (fs : FS) (predicted : String)
    (uid : Nat) (uname platform url : String)
    (delivery : Except String Unit) (today : Nat) (now : Int) : SendResult :=
  match resolve_path fs predicted with
  | none => { outcome := .failed "Downloaded file not found", db := db, fs := fs,
              events := [] }
  | some file_path =>
      let file_size := getsize fs file_path
      if cfg.MAX_FILE_SIZE_MB * 1024 * 1024 < file_size then
        { outcome := .failed (tooLargeMsg cfg file_size), db := db,
          fs := fs_remove fs file_path, events := [.removeFile file_path] }
      else
        let res := log_download db fs uid uname platform url
          (basename file_path) file_path today now
        match delivery with
        | .error e =>
            { outcome := .failed e, db := res.1, fs := fs,
              events := [.logDownload res.2] }
        | .ok _ =>
            { outcome := .sent res.2, db := mark_as_sent res.1 res.2 now,
              fs := fs_remove fs file_path,
              events := [.logDownload res.2, .deliverFile file_path,
                         .markSent res.2, .removeFile file_path] }

/-! ### One extraction attempt and the YouTube fallback chain
(`FormatSelectionView.handle_youtube_download`, src/bot.py lines 760-825) -/

deriving instance DecidableEq for Except

/-- Result of one `with YoutubeDL(opts) ... extract_info ... send_file`
block: `Except.ok` carries the sent record id, `Except.error` the message of
whatever exception escaped the block (engine failure or `send_file` raise). -/
structure AttemptResult where
  result : Except String Nat
  db : DB
  fs : FS
  events : List Event
deriving DecidableEq

/-- One attempt: run the engine with the given options; on extraction
success, `send_file` from the engine-produced filesystem. -/
def run_attempt (cfg : Config) (engine : Engine) (opts : YdlOpts)
    (delivery : Except String Unit) (db : DB) (fs : FS) (uid : Nat)
    (uname platform url : String) (today : Nat) (now : Int) : AttemptResult :=
  match engine opts with
  | .error e => { result := .error e, db := db, fs := fs, events := [] }
  | .ok info =>
      let s := send_file cfg db info.fsAfter info.predicted uid uname platform
        url delivery today now
      match s.outcome with
      | .sent did => { result := .ok did, db := s.db, fs := s.fs, events := s.events }
      | .failed m => { result := .error m, db := s.db, fs := s.fs, events := s.events }

/-- Result of the whole YouTube handler: outcome, final catalog/filesystem,
effect trace, the truncated-error console logs, and how many methods ran. -/
structure YTOutcome where
  result : Except String Nat
  db : DB
  fs : FS
  events : List Event
  logs : List String
  methodsTried : Nat
deriving DecidableEq

/-- `FormatSelectionView.handle_youtube_download`: Method 1 with the given
options; on any exception, log the truncated error and try Method 2 with the
degraded format (`alt_opts`); on any exception, log and try Method 3 with
audio-only options (`audio_opts`); a third failure is re-raised wrapped as
"All download methods failed. Last error: ...". -/
def handle_youtube_download (cfg : Config) (engine : Engine)
    (d1 d2 d3 : Except String Unit) (db : DB) (fs : FS) (opts : YdlOpts)
    (format_choice : String) (uid : Nat) (uname platform url : String)
    (today : Nat) (now : Int) : YTOutcome :=
  let a1 := run_attempt cfg engine opts d1 db fs uid uname platform url today now
  match a1.result with
  | .ok did =>
      { result := .ok did, db := a1.db, fs := a1.fs, events := a1.events,
        logs := [], methodsTried := 1 }
  | .error e1 =>
      let log1 := "Method 1 failed: " ++ truncate 100 e1
      let a2 := run_attempt cfg engine (alt_opts opts format_choice) d2 a1.db
        a1.fs uid uname platform url today now
      match a2.result with
      | .ok did =>
          { result := .ok did, db := a2.db, fs := a2.fs,
            events := a1.events ++ a2.events, logs := [log1], methodsTried := 2 }
      | .error e2 =>
          let log2 := "Method 2 failed: " ++ truncate 100 e2
          let a3 := run_attempt cfg engine (audio_opts opts) d3 a2.db a2.fs uid
            uname platform url today now
          match a3.result with
          | .ok did =>
              { result := .ok did, db := a3.db, fs := a3.fs,
                events := a1.events ++ a2.events ++ a3.events,
                logs := [log1, log2], methodsTried := 3 }
          | .error e3 =>
              { result := .error ("All download methods failed. Last error: " ++ e3),
                db := a3.db, fs := a3.fs,
                events := a1.events ++ a2.events ++ a3.events,
                logs := [log1, log2, "All methods failed: " ++ truncate 100 e3],
                methodsTried := 3 }

/-- `FormatSelectionView.handle_other_platforms` (src/bot.py lines 827-835):
one attempt, no fallback, exceptions propagate. -/
def handle_other_platforms (cfg : Config) (engine : Engine)
    (delivery : Except String Unit) (db : DB) (fs : FS) (opts : YdlOpts)
    (uid : Nat) (uname platform url : String) (today : Nat) (now : Int) :
    AttemptResult :=
  run_attempt cfg engine opts delivery db fs uid uname platform url today now

/-- `FormatSelectionView.process_download` (src/bot.py lines 727-758) after
the user presses a format button: build the options and dispatch on the
platform.  Note: no quota check happens here. -/
def process_download (cfg : Config) (engine : Engine)
    (d1 d2 d3 : Except String Unit) (db : DB) (fs : FS)
    (format_choice platform : String) (uid : Nat) (uname url : String)
    (today : Nat) (now : Int) : YTOutcome :=
  let opts := get_ydl_options format_choice platform
  if platform = "YouTube" then
    handle_youtube_download cfg engine d1 d2 d3 db fs opts format_choice uid
      uname platform url today now
  else
    let a := handle_other_platforms cfg engine d1 db fs opts uid uname platform
      url today now
    { result := a.result, db := a.db, fs := a.fs, events := a.events,
      logs := [], methodsTried := 1 }

/-! ### handle_url (src/bot.py lines 625-675) -/

/-- What `handle_url` answers at URL-submission time. -/
inductive UrlOutcome where
  | invalidUrl
  | quotaDenied (reason : String)
  | menuShown (platform : String)
deriving DecidableEq

/-- `handle_url`: reject a URL without an http scheme; deny via
`can_user_download` (the only quota check of the request); otherwise detect
the platform and show the format-selection menu.  No catalog mutation. -/
def handle_url (cfg : Config) (db : DB) (uid : Nat) (url : String)
    (now : Int) : UrlOutcome :=
  if !(starts_with url "http://" || starts_with url "https://") then .invalidUrl
  else
    let c := can_user_download cfg db uid now
    if !c.1 then .quotaDenied c.2
    else .menuShown (detect_platform url)

/-! ### Derived notions used to state the claims -/

/-- The per-logging arguments that may vary along one user's sequence of
successful downloads on a single calendar day. -/
structure LogArgs where
  uname : String
  platform : String
  url : String
  filename : String
  file_path : String
  fs : FS
  now : Int

/-- A sequence of successful download loggings by one user on one day. -/
def logSeq (uid today : Nat) : List LogArgs → DB → DB
  | [], db => db
  | a :: rest, db =>
      logSeq uid today rest
        (log_download db a.fs uid a.uname a.platform a.url a.filename
          a.file_path today a.now).1

/-! ### Helper lemmas about the association-list catalog -/

theorem find?_map_replace (l : List (Nat × UserStats)) (uid : Nat) (s : UserStats)
    (h : l.any (fun e => e.1 == uid) = true) :
    ((l.map (fun e => if e.1 == uid then (uid, s) else e)).find?
      (fun e => e.1 == uid)).map (fun e => e.2) = some s := by
  induction l with
  | nil => simp at h
  | cons e t ih =>
      by_cases he : (e.1 == uid) = true
      · rw [List.map_cons, if_pos he, List.find?_cons_of_pos _ (by simp),
          Option.map_some']
      · have ht : t.any (fun e => e.1 == uid) = true := by
          rw [List.any_cons, Bool.or_eq_true_iff] at h
          exact h.resolve_left he
        have he' : (e.1 == uid) = false := Bool.eq_false_iff.mpr he
        rw [List.map_cons, if_neg he]
        simp only [List.find?_cons, he']
        exact ih ht

theorem find?_map_append_self (l : List (Nat × UserStats)) (uid : Nat)
    (s : UserStats) (h : l.any (fun e => e.1 == uid) = false) :
    (((l ++ [(uid, s)]).find? (fun e => e.1 == uid)).map (fun e => e.2)) =
      some s := by
  induction l with
  | nil =>
      rw [List.nil_append, List.find?_cons_of_pos _ (by simp),
        Option.map_some']
  | cons e t ih =>
      rw [List.any_cons, Bool.or_eq_false_iff] at h
      rw [List.cons_append, List.find?_cons_of_neg _ (by simp [h.1])]
      exact ih h.2

theorem find?_map_upsert (l : List (Nat × UserStats)) (uid : Nat) (s : UserStats) :
    ((upsertStats l uid s).find? (fun e => e.1 == uid)).map (fun e => e.2) =
      some s := by
  unfold upsertStats
  by_cases h : l.any (fun e => e.1 == uid) = true
  · simpa [h] using find?_map_replace l uid s h
  · have h0 : l.any (fun e => e.1 == uid) = false := Bool.eq_false_iff.mpr h
    simpa [h0] using find?_map_append_self l uid s h0

/-- What `log_download` does to the logging user's `downloads_today`. -/
theorem dayCount_log (db : DB) (fs : FS) (uid : Nat)
    (uname platform url filename fp : String) (today : Nat) (now : Int) :
    dayCount (log_download db fs uid uname platform url filename fp today now).1
        uid =
      (if lastDate db uid = some today then dayCount db uid + 1 else 1) := by
  unfold log_download dayCount lastDate lookupStats
  cases hl : db.user_stats.find? (fun e => e.1 == uid) with
  | none => simp [hl, find?_map_upsert]
  | some e => simp [hl, find?_map_upsert]

/-- `log_download` stamps today as the user's last-download date. -/
theorem lastDate_log (db : DB) (fs : FS) (uid : Nat)
    (uname platform url filename fp : String) (today : Nat) (now : Int) :
    lastDate (log_download db fs uid uname platform url filename fp today now).1
        uid = some today := by
  unfold log_download lastDate lookupStats
  cases hl : db.user_stats.find? (fun e => e.1 == uid) with
  | none => simp [hl, find?_map_upsert]
  | some e => simp [hl, find?_map_upsert]

/-- Same-day loggings each increment `downloads_today` by one. -/
theorem logSeq_same_day (uid today : Nat) (args : List LogArgs) :
    ∀ db : DB, lastDate db uid = some today →
      dayCount (logSeq uid today args db) uid = dayCount db uid + args.length := by
  induction args with
  | nil => intro db _; simp [logSeq]
  | cons a rest ih =>
      intro db hdb
      have h2 := dayCount_log db a.fs uid a.uname a.platform a.url a.filename
        a.file_path today a.now
      have h3 := lastDate_log db a.fs uid a.uname a.platform a.url a.filename
        a.file_path today a.now
      rw [hdb, if_pos rfl] at h2
      simp only [logSeq]
      rw [ih _ h3, h2, List.length_cons]
      omega

/-! ### C2 -/

/-- C2: starting from any catalog state in which the user's stored
last-download date is not today (including a user with no row at all), a
nonempty sequence of N same-day successful download loggings leaves
`downloads_today` exactly N: the first logging of the new day sets it to 1
and each further one increments it. -/
theorem downloads_today_counts_per_day (uid today : Nat) (db : DB)
    (args : List LogArgs) (hday : lastDate db uid ≠ some today)
    (hne : args ≠ []) :
    dayCount (logSeq uid today args db) uid = args.length := by
  cases args with
  | nil => exact absurd rfl hne
  | cons a rest =>
      have h2 := dayCount_log db a.fs uid a.uname a.platform a.url a.filename
        a.file_path today a.now
      have h3 := lastDate_log db a.fs uid a.uname a.platform a.url a.filename
        a.file_path today a.now
      rw [if_neg hday] at h2
      simp only [logSeq]
      rw [logSeq_same_day uid today rest _ h3, h2, List.length_cons]
      omega

/-- C2 witness: a fresh user logging three downloads on day 5 ends with
`downloads_today = 3` (and the theorem applies since an absent row has no
stored date). -/
theorem downloads_today_counts_per_day_witness :
    dayCount
      (logSeq 7 5
        [{ uname := "u", platform := "YouTube", url := "https://youtu.be/a",
           filename := "a.mp4", file_path := "downloads/a.mp4",
           fs := [("downloads/a.mp4", 100)], now := 10 },
         { uname := "u", platform := "TikTok", url := "https://tiktok.com/b",
           filename := "b.mp4", file_path := "downloads/b.mp4",
           fs := [("downloads/b.mp4", 200)], now := 20 },
         { uname := "u", platform := "Reddit", url := "https://reddit.com/c",
           filename := "c.mp4", file_path := "downloads/c.mp4",
           fs := [], now := 30 }] emptyDB) 7 = 3 :=
  downloads_today_counts_per_day 7 5 emptyDB _ (by decide)
    (List.cons_ne_nil _ _)

/-! ### C7 -/

/-- The denial reason string of `can_user_download`. -/
def limitReason (cfg : Config) : String :=
  "You have reached your daily limit (" ++ toString cfg.MAX_DOWNLOADS_PER_DAY ++
    " downloads). Try again tomorrow!"

/-- The stats snapshot reports exactly the stored `downloads_today`
(zero for an absent row). -/
theorem get_user_stats_today (cfg : Config) (db : DB) (uid : Nat) (now : Int) :
    (get_user_stats cfg db uid now).downloads_today = dayCount db uid := by
  unfold get_user_stats dayCount
  cases hl : lookupStats db uid with
  | none => simp
  | some s => simp

/-- `can_user_download` as a single conditional on the stored day count. -/
theorem can_user_download_eq (cfg : Config) (db : DB) (uid : Nat) (now : Int) :
    can_user_download cfg db uid now =
      if cfg.MAX_DOWNLOADS_PER_DAY ≤ dayCount db uid then
        (false, limitReason cfg)
      else (true, "") := by
  unfold can_user_download limitReason
  rw [get_user_stats_today]

/-- C7: the admission check.  The configured default daily limit is 50; a
user with no stored quota row is allowed with an empty reason (given a
positive limit — with a limit of 0 even zero counts deny, per the
denial rule of the same contract); the check allows exactly when the stored
`downloads_today` is below the limit; when it denies it returns the
human-readable limit reason, and when it allows the reason is empty.  The
function reads the catalog and returns only a pair, so it performs no
catalog mutation. -/
theorem can_user_download_contract (cfg : Config) (db : DB) (uid : Nat)
    (now : Int) :
    defaultConfig.MAX_DOWNLOADS_PER_DAY = 50 ∧
    (0 < cfg.MAX_DOWNLOADS_PER_DAY → lookupStats db uid = none →
      can_user_download cfg db uid now = (true, "")) ∧
    ((can_user_download cfg db uid now).1 = true ↔
      dayCount db uid < cfg.MAX_DOWNLOADS_PER_DAY) ∧
    ((can_user_download cfg db uid now).1 = false →
      can_user_download cfg db uid now = (false, limitReason cfg)) ∧
    ((can_user_download cfg db uid now).1 = true →
      (can_user_download cfg db uid now).2 = "") := by
  rw [can_user_download_eq]
  refine ⟨rfl, ?_, ?_, ?_, ?_⟩
  · intro hpos hnone
    have h0 : dayCount db uid = 0 := by
      unfold dayCount; rw [hnone]; rfl
    rw [if_neg (by omega)]
  · by_cases h : cfg.MAX_DOWNLOADS_PER_DAY ≤ dayCount db uid
    · rw [if_pos h]
      constructor
      · intro hc; exact absurd hc (by simp)
      · intro hc; exact absurd hc (by omega)
    · rw [if_neg h]
      constructor
      · intro _; omega
      · intro _; rfl
  · by_cases h : cfg.MAX_DOWNLOADS_PER_DAY ≤ dayCount db uid
    · rw [if_pos h]; intro _; rfl
    · rw [if_neg h]; intro hc; exact absurd hc (by simp)
  · by_cases h : cfg.MAX_DOWNLOADS_PER_DAY ≤ dayCount db uid
    · rw [if_pos h]; intro hc; exact absurd hc (by simp)
    · rw [if_neg h]; intro _; rfl

/-- C7 witness: with the default configuration, a user absent from the
catalog is allowed with an empty reason. -/
theorem can_user_download_contract_witness :
    can_user_download defaultConfig emptyDB 7 0 = (true, "") :=
  (can_user_download_contract defaultConfig emptyDB 7 0).2.1 (by decide) rfl

/-! ### C4 -/

/-- C4 counterexample: for the Instagram platform (whose platform-specific
override sets the format to the single best-effort `best` stream) and the
`video` choice, the final format selector is the generic map entry, not the
platform override — the generic `format_map` assignment runs after and
overwrites the platform-specific one. -/
theorem platform_override_overwritten :
    (get_ydl_options "video" "Instagram").format = "bv*+ba/b" ∧
    (get_ydl_options "video" "Instagram").format ≠ "best" := by
  exact ⟨rfl, by decide⟩

/-- C4 amended: platform-specific format overrides do not take precedence —
the generic `format_map` entry is assigned afterwards and wins for every
choice in the fixed enumeration, on every platform: `video`, `medium` and
`small` always resolve to their generic map selectors, and `audio` always
resolves to `bestaudio` with the FFmpeg audio postprocessor attached. -/
theorem generic_map_wins (platform : String) :
    (get_ydl_options "video" platform).format = "bv*+ba/b" ∧
    (get_ydl_options "medium" platform).format = "best[height<=720]/best" ∧
    (get_ydl_options "small" platform).format = "best[height<=480]/best" ∧
    (get_ydl_options "audio" platform).format = "bestaudio" ∧
    (get_ydl_options "audio" platform).audioPostprocess = true :=
  ⟨rfl, rfl, rfl, rfl, rfl⟩

/-! ### Filesystem lemmas -/

/-- Removing a path removes it. -/
theorem fs_exists_remove_self (fs : FS) (p : String) :
    fs_exists (fs_remove fs p) p = false := by
  unfold fs_exists fs_remove
  induction fs with
  | nil => rfl
  | cons e t ih =>
      by_cases he : (e.1 == p) = true
      · simp [List.filter_cons, he]
      · have he' : (e.1 == p) = false := Bool.eq_false_iff.mpr he
        simp [List.filter_cons, he']

/-- Removing one path never makes another appear. -/
theorem fs_exists_remove_of_not (fs : FS) (p q : String)
    (h : fs_exists fs p = false) : fs_exists (fs_remove fs q) p = false := by
  unfold fs_exists fs_remove at *
  induction fs with
  | nil => rfl
  | cons e t ih =>
      rw [List.any_cons, Bool.or_eq_false_iff] at h
      by_cases he : (e.1 == q) = true
      · simpa [List.filter_cons, he] using ih h.2
      · have he' : (e.1 == q) = false := Bool.eq_false_iff.mpr he
        simpa [List.filter_cons, he', List.any_cons, h.1] using ih h.2

/-- A path returned by the extension-probing file locator exists. -/
theorem resolve_path_exists (fs : FS) (predicted p : String)
    (h : resolve_path fs predicted = some p) : fs_exists fs p = true := by
  unfold resolve_path at h
  by_cases hp : fs_exists fs predicted = true
  · rw [if_pos hp] at h
    cases h
    exact hp
  · rw [if_neg hp] at h
    exact List.find?_some h

/-! ### C3 -/

/-- C3: when the resolved downloaded file is strictly larger than the
configured maximum (`MAX_FILE_SIZE_MB`, 25 by default), `send_file` deletes
the file and fails with the size-exceeded error before any persistence: the
catalog is returned unchanged (no `log_download` record, no quota change),
the only effect is the file removal, and the file is gone from the resulting
filesystem. -/
theorem oversized_download_rejected (cfg : Config) (db : DB) (fs : FS)
    (predicted file_path : String) (uid : Nat) (uname platform url : String)
    (delivery : Except String Unit) (today : Nat) (now : Int)
    (hres : resolve_path fs predicted = some file_path)
    (hbig : cfg.MAX_FILE_SIZE_MB * 1024 * 1024 < getsize fs file_path) :
    send_file cfg db fs predicted uid uname platform url delivery today now =
      { outcome := .failed (tooLargeMsg cfg (getsize fs file_path)), db := db,
        fs := fs_remove fs file_path, events := [.removeFile file_path] } ∧
    fs_exists (fs_remove fs file_path) file_path = false := by
  constructor
  · simp only [send_file, hres]
    rw [if_pos hbig]
  · exact fs_exists_remove_self fs file_path

/-- C3 witness: a 26 MB file (with the 25 MB default limit) is removed and
no record is created. -/
theorem oversized_download_rejected_witness :
    send_file defaultConfig emptyDB [("downloads/big.mp4", 27262976)]
        "downloads/big.mp4" 7 "u" "YouTube" "https://youtu.be/a" (.ok ()) 3 9 =
      { outcome := .failed (tooLargeMsg defaultConfig 27262976), db := emptyDB,
        fs := fs_remove [("downloads/big.mp4", 27262976)] "downloads/big.mp4",
        events := [.removeFile "downloads/big.mp4"] } ∧
    fs_exists
      (fs_remove [("downloads/big.mp4", 27262976)] "downloads/big.mp4")
      "downloads/big.mp4" = false :=
  oversized_download_rejected defaultConfig emptyDB _ _ "downloads/big.mp4" 7
    "u" "YouTube" "https://youtu.be/a" (.ok ()) 3 9 rfl (by decide)

/-! ### C8 -/

/-- `mark_as_sent` does not touch the quota ledger. -/
theorem dayCount_mark_as_sent (db : DB) (did : Nat) (now : Int) (uid : Nat) :
    dayCount (mark_as_sent db did now) uid = dayCount db uid := rfl

/-- `log_download` returns the id of the record it inserted. -/
theorem log_download_id (db : DB) (fs : FS) (uid : Nat)
    (uname platform url filename fp : String) (today : Nat) (now : Int) :
    (log_download db fs uid uname platform url filename fp today now).2 =
      db.next_id := rfl

/-- The `downloads` table after `log_download`: the old rows plus the new
`downloaded` row. -/
theorem log_download_downloads (db : DB) (fs : FS) (uid : Nat)
    (uname platform url filename fp : String) (today : Nat) (now : Int) :
    (log_download db fs uid uname platform url filename fp today
        now).1.downloads =
      db.downloads ++
        [{ id := db.next_id, user_id := uid, user_name := uname,
           platform := platform, url := url, filename := filename,
           file_path := fp,
           file_size := if fs_exists fs fp then getsize fs fp else 0,
           status := .downloaded, download_time := now, sent_time := none,
           deleted := false }] := rfl

/-- C8: on a successful download and delivery, `send_file` performs, in this
order: record creation with status `downloaded` (which increments the quota
counters), delivery of the file, `mark_as_sent`, and only then the deletion
of the local file.  The final catalog contains the record with status
`sent` and a sent timestamp (the history persists), the quota counter has
advanced per the day rule, and the delivered file is no longer on disk. -/
theorem send_file_success_order (cfg : Config) (db : DB) (fs : FS)
    (predicted file_path : String) (uid : Nat) (uname platform url : String)
    (today : Nat) (now : Int)
    (hres : resolve_path fs predicted = some file_path)
    (hsize : ¬ cfg.MAX_FILE_SIZE_MB * 1024 * 1024 < getsize fs file_path) :
    let r := send_file cfg db fs predicted uid uname platform url (.ok ())
      today now
    r.outcome = .sent db.next_id ∧
    r.events = [.logDownload db.next_id, .deliverFile file_path,
                .markSent db.next_id, .removeFile file_path] ∧
    ({ id := db.next_id, user_id := uid, user_name := uname,
       platform := platform, url := url, filename := basename file_path,
       file_path := file_path, file_size := getsize fs file_path,
       status := .sent, download_time := now, sent_time := some now,
       deleted := false } : DownloadRecord) ∈ r.db.downloads ∧
    dayCount r.db uid =
      (if lastDate db uid = some today then dayCount db uid + 1 else 1) ∧
    fs_exists r.fs file_path = false := by
  intro r
  have hex : fs_exists fs file_path = true :=
    resolve_path_exists fs predicted file_path hres
  have hr : r = { outcome := .sent db.next_id,
                  db := mark_as_sent
                    (log_download db fs uid uname platform url
                      (basename file_path) file_path today now).1
                    db.next_id now,
                  fs := fs_remove fs file_path,
                  events := [.logDownload db.next_id, .deliverFile file_path,
                             .markSent db.next_id, .removeFile file_path] } := by
    show send_file cfg db fs predicted uid uname platform url (.ok ())
      today now = _
    simp only [send_file, hres]
    rw [if_neg hsize]
    simp only [log_download_id]
  refine ⟨by rw [hr], by rw [hr], ?_, ?_, ?_⟩
  · rw [hr]
    show _ ∈ (mark_as_sent _ db.next_id now).downloads
    unfold mark_as_sent
    rw [log_download_downloads]
    refine List.mem_map.mpr
      ⟨_, List.mem_append_right _ (List.mem_singleton.mpr rfl), ?_⟩
    simp [hex]
  · rw [hr]
    show dayCount (mark_as_sent _ db.next_id now) uid = _
    rw [dayCount_mark_as_sent]
    exact dayCount_log db fs uid uname platform url (basename file_path)
      file_path today now
  · rw [hr]
    exact fs_exists_remove_self fs file_path

/-- C8 witness: the canonical success scenario (fresh user, 5000-byte file)
creates record 1, delivers, marks sent and deletes the file, leaving
`downloads_today = 1`. -/
theorem send_file_success_order_witness :
    let r := send_file defaultConfig emptyDB [("downloads/v.mp4", 5000)]
      "downloads/v.mp4" 7 "u" "YouTube" "https://youtu.be/a" (.ok ()) 3 9
    r.outcome = .sent emptyDB.next_id ∧
    r.events = [.logDownload emptyDB.next_id, .deliverFile "downloads/v.mp4",
                .markSent emptyDB.next_id, .removeFile "downloads/v.mp4"] ∧
    ({ id := emptyDB.next_id, user_id := 7, user_name := "u",
       platform := "YouTube", url := "https://youtu.be/a",
       filename := basename "downloads/v.mp4", file_path := "downloads/v.mp4",
       file_size := getsize [("downloads/v.mp4", 5000)] "downloads/v.mp4",
       status := .sent, download_time := 9, sent_time := some 9,
       deleted := false } : DownloadRecord) ∈ r.db.downloads ∧
    dayCount r.db 7 =
      (if lastDate emptyDB 7 = some 3 then dayCount emptyDB 7 + 1 else 1) ∧
    fs_exists r.fs "downloads/v.mp4" = false :=
  send_file_success_order defaultConfig emptyDB [("downloads/v.mp4", 5000)]
    "downloads/v.mp4" "downloads/v.mp4" 7 "u" "YouTube" "https://youtu.be/a"
    3 9 rfl (by decide)

/-! ### C1 -/

/-- C1: behaviour of the YouTube fallback chain.  The three strategies run
in strict order — the standard options, then the degraded format
(`alt_opts`), then audio-only (`audio_opts`) — and the chain stops at the
first success; every non-final attempt failure is caught and logged with
the error truncated to 100 characters; only the third strategy's failure is
surfaced, wrapped in the all-methods-exhausted message (carrying the last
underlying error untruncated). -/
theorem youtube_fallback_chain (cfg : Config) (engine : Engine)
    (d1 d2 d3 : Except String Unit) (db : DB) (fs : FS) (opts : YdlOpts)
    (choice : String) (uid : Nat) (uname platform url : String)
    (today : Nat) (now : Int) :
    (∀ did db1 fs1 evs1,
      run_attempt cfg engine opts d1 db fs uid uname platform url today now =
        ⟨.ok did, db1, fs1, evs1⟩ →
      handle_youtube_download cfg engine d1 d2 d3 db fs opts choice uid uname
          platform url today now = ⟨.ok did, db1, fs1, evs1, [], 1⟩) ∧
    (∀ e1 db1 fs1 evs1 did db2 fs2 evs2,
      run_attempt cfg engine opts d1 db fs uid uname platform url today now =
        ⟨.error e1, db1, fs1, evs1⟩ →
      run_attempt cfg engine (alt_opts opts choice) d2 db1 fs1 uid uname
          platform url today now = ⟨.ok did, db2, fs2, evs2⟩ →
      handle_youtube_download cfg engine d1 d2 d3 db fs opts choice uid uname
          platform url today now =
        ⟨.ok did, db2, fs2, evs1 ++ evs2,
         ["Method 1 failed: " ++ truncate 100 e1], 2⟩) ∧
    (∀ e1 db1 fs1 evs1 e2 db2 fs2 evs2 did db3 fs3 evs3,
      run_attempt cfg engine opts d1 db fs uid uname platform url today now =
        ⟨.error e1, db1, fs1, evs1⟩ →
      run_attempt cfg engine (alt_opts opts choice) d2 db1 fs1 uid uname
          platform url today now = ⟨.error e2, db2, fs2, evs2⟩ →
      run_attempt cfg engine (audio_opts opts) d3 db2 fs2 uid uname platform
          url today now = ⟨.ok did, db3, fs3, evs3⟩ →
      handle_youtube_download cfg engine d1 d2 d3 db fs opts choice uid uname
          platform url today now =
        ⟨.ok did, db3, fs3, evs1 ++ evs2 ++ evs3,
         ["Method 1 failed: " ++ truncate 100 e1,
          "Method 2 failed: " ++ truncate 100 e2], 3⟩) ∧
    (∀ e1 db1 fs1 evs1 e2 db2 fs2 evs2 e3 db3 fs3 evs3,
      run_attempt cfg engine opts d1 db fs uid uname platform url today now =
        ⟨.error e1, db1, fs1, evs1⟩ →
      run_attempt cfg engine (alt_opts opts choice) d2 db1 fs1 uid uname
          platform url today now = ⟨.error e2, db2, fs2, evs2⟩ →
      run_attempt cfg engine (audio_opts opts) d3 db2 fs2 uid uname platform
          url today now = ⟨.error e3, db3, fs3, evs3⟩ →
      handle_youtube_download cfg engine d1 d2 d3 db fs opts choice uid uname
          platform url today now =
        ⟨.error ("All download methods failed. Last error: " ++ e3),
         db3, fs3, evs1 ++ evs2 ++ evs3,
         ["Method 1 failed: " ++ truncate 100 e1,
          "Method 2 failed: " ++ truncate 100 e2,
          "All methods failed: " ++ truncate 100 e3], 3⟩) := by
  refine ⟨?_, ?_, ?_, ?_⟩
  · intro did db1 fs1 evs1 h1
    simp only [handle_youtube_download, h1]
  · intro e1 db1 fs1 evs1 did db2 fs2 evs2 h1 h2
    simp only [handle_youtube_download, h1, h2]
  · intro e1 db1 fs1 evs1 e2 db2 fs2 evs2 did db3 fs3 evs3 h1 h2 h3
    simp only [handle_youtube_download, h1, h2, h3]
  · intro e1 db1 fs1 evs1 e2 db2 fs2 evs2 e3 db3 fs3 evs3 h1 h2 h3
    simp only [handle_youtube_download, h1, h2, h3]

/-- C1 witness: an engine that always raises "boom" makes all three
strategies fail; the chain logs the two intermediate truncated failures
(plus the final console line) and surfaces only the wrapped third error. -/
theorem youtube_fallback_chain_witness :
    handle_youtube_download defaultConfig (fun _ => .error "boom") (.ok ())
        (.ok ()) (.ok ()) emptyDB [] (get_ydl_options "video" "YouTube")
        "video" 7 "u" "YouTube" "https://youtu.be/a" 3 9 =
      ⟨.error "All download methods failed. Last error: boom", emptyDB, [], [],
       ["Method 1 failed: boom", "Method 2 failed: boom",
        "All methods failed: boom"], 3⟩ := by
  have h := (youtube_fallback_chain defaultConfig (fun _ => .error "boom")
    (.ok ()) (.ok ()) (.ok ()) emptyDB [] (get_ydl_options "video" "YouTube")
    "video" 7 "u" "YouTube" "https://youtu.be/a" 3 9).2.2.2
    "boom" emptyDB [] [] "boom" emptyDB [] [] "boom" emptyDB [] []
    rfl rfl rfl
  exact h

/-! ### C5 -/

/-- An engine behaviour exhibiting a reported success whose output file is
missing: with the standard options it claims success but writes nothing;
with the degraded Method-2 format it really produces the file. -/
def c5engine : Engine := fun o =>
  if o.format = "best[height<=720]" then
    .ok { predicted := "downloads/v.mp4", title := "t",
          fsAfter := [("downloads/v.mp4", 5000)] }
  else
    .ok { predicted := "downloads/v.mp4", title := "t", fsAfter := [] }

/-- C5 counterexample: an extraction attempt that reports success with the
output file missing (even after probing the alternative extensions) raises
"Downloaded file not found", yet the request does NOT stop there: the
YouTube chain catches it like any other failure and the second strategy
completes the request successfully (two methods tried, result ok) — so this
error is not fatal for the request and a further fallback strategy IS
attempted after it. -/
theorem file_missing_not_request_fatal :
    (run_attempt defaultConfig c5engine (get_ydl_options "video" "YouTube")
        (.ok ()) emptyDB [] 7 "u" "YouTube" "https://youtu.be/a" 3 9).result =
      .error "Downloaded file not found" ∧
    (handle_youtube_download defaultConfig c5engine (.ok ()) (.ok ()) (.ok ())
        emptyDB [] (get_ydl_options "video" "YouTube") "video" 7 "u" "YouTube"
        "https://youtu.be/a" 3 9).result = .ok 1 ∧
    (handle_youtube_download defaultConfig c5engine (.ok ()) (.ok ()) (.ok ())
        emptyDB [] (get_ydl_options "video" "YouTube") "video" 7 "u" "YouTube"
        "https://youtu.be/a" 3 9).methodsTried = 2 := by
  refine ⟨?_, ?_, ?_⟩ <;> decide

/-- C5 amended: the missing-file error after a reported success is fatal
only for that single attempt, not for the request.  The attempt itself
raises "Downloaded file not found" leaving catalog and effect trace
untouched; inside the YouTube fallback chain such a failure of the first
strategy is caught like any other attempt failure and the next strategy is
attempted — if that one succeeds, the request succeeds.  (Only when the
error arises on the final strategy, or on a single-attempt platform, does
it surface to the caller — the surfacing behaviour proved for the chain in
general.) -/
theorem file_missing_fatal_per_attempt (cfg : Config) (engine : Engine)
    (d1 d2 d3 : Except String Unit) (db : DB) (fs : FS) (opts : YdlOpts)
    (choice : String) (uid : Nat) (uname platform url : String)
    (today : Nat) (now : Int) (info : ExtractOk)
    (heng : engine opts = .ok info)
    (hmiss : resolve_path info.fsAfter info.predicted = none) :
    run_attempt cfg engine opts d1 db fs uid uname platform url today now =
      ⟨.error "Downloaded file not found", db, info.fsAfter, []⟩ ∧
    (∀ did db2 fs2 evs2,
      run_attempt cfg engine (alt_opts opts choice) d2 db info.fsAfter uid
          uname platform url today now = ⟨.ok did, db2, fs2, evs2⟩ →
      (handle_youtube_download cfg engine d1 d2 d3 db fs opts choice uid uname
          platform url today now).result = .ok did) := by
  have h1 : run_attempt cfg engine opts d1 db fs uid uname platform url today
      now = ⟨.error "Downloaded file not found", db, info.fsAfter, []⟩ := by
    simp only [run_attempt, heng, send_file, hmiss]
  refine ⟨h1, ?_⟩
  intro did db2 fs2 evs2 h2
  simp only [handle_youtube_download, h1, h2]

set_option maxRecDepth 2000 in
/-- C5 amended witness: the concrete scenario of the counterexample run
through the amended theorem. -/
theorem file_missing_fatal_per_attempt_witness :
    run_attempt defaultConfig c5engine (get_ydl_options "video" "YouTube")
        (.ok ()) emptyDB [] 7 "u" "YouTube" "https://youtu.be/a" 3 9 =
      ⟨.error "Downloaded file not found", emptyDB, [], []⟩ ∧
    (handle_youtube_download defaultConfig c5engine (.ok ()) (.ok ()) (.ok ())
        emptyDB [] (get_ydl_options "video" "YouTube") "video" 7 "u" "YouTube"
        "https://youtu.be/a" 3 9).result = .ok 1 := by
  have h := file_missing_fatal_per_attempt defaultConfig c5engine (.ok ())
    (.ok ()) (.ok ()) emptyDB [] (get_ydl_options "video" "YouTube") "video" 7
    "u" "YouTube" "https://youtu.be/a" 3 9
    { predicted := "downloads/v.mp4", title := "t", fsAfter := [] }
    (by decide) (by decide)
  refine ⟨h.1, ?_⟩
  exact h.2 1
    (mark_as_sent
      (log_download emptyDB [("downloads/v.mp4", 5000)] 7 "u" "YouTube"
        "https://youtu.be/a" (basename "downloads/v.mp4") "downloads/v.mp4"
        3 9).1 1 9)
    (fs_remove [("downloads/v.mp4", 5000)] "downloads/v.mp4")
    [.logDownload 1, .deliverFile "downloads/v.mp4", .markSent 1,
     .removeFile "downloads/v.mp4"]
    (by decide)

/-! ### C6 -/

/-- Marking a set of ids deleted, as one map over the table. -/
def markAll (ids : List Nat) (ds : List DownloadRecord) : List DownloadRecord :=
  ds.map (fun r => if r.id ∈ ids then { r with deleted := true } else r)

theorem markAll_set_deleted (ids : List Nat) (fid : Nat)
    (ds : List DownloadRecord) :
    markAll ids (set_deleted ds fid) = markAll (fid :: ids) ds := by
  unfold markAll set_deleted
  rw [List.map_map]
  apply List.map_congr_left
  intro r _
  by_cases h1 : r.id = fid
  · by_cases h2 : r.id ∈ ids <;>
      simp [Function.comp, h1, h2, List.mem_cons]
  · by_cases h2 : r.id ∈ ids <;>
      simp [Function.comp, h1, h2, List.mem_cons]

/-- The catalog part of the sweep loop marks exactly the selected ids. -/
theorem sweep_downloads (rows : List (Nat × String))
    (ds : List DownloadRecord) (fs : FS) (n : Nat) :
    (sweep rows ds fs n).1 = markAll (rows.map (fun e => e.1)) ds := by
  induction rows generalizing ds fs n with
  | nil => simp [sweep, markAll]
  | cons row rest ih =>
      obtain ⟨fid, p⟩ := row
      simp only [sweep]
      rw [ih, markAll_set_deleted, List.map_cons]

/-- The sweep loop counts one reclamation per selected row. -/
theorem sweep_count (rows : List (Nat × String)) (ds : List DownloadRecord)
    (fs : FS) (n : Nat) : (sweep rows ds fs n).2.2 = n + rows.length := by
  induction rows generalizing ds fs n with
  | nil => simp [sweep]
  | cons row rest ih =>
      obtain ⟨fid, p⟩ := row
      simp only [sweep, ih, List.length_cons]
      omega

/-- The sweep loop never creates files. -/
theorem sweep_fs_mono (rows : List (Nat × String)) (ds : List DownloadRecord)
    (fs : FS) (n : Nat) (p : String) (h : fs_exists fs p = false) :
    fs_exists (sweep rows ds fs n).2.1 p = false := by
  induction rows generalizing ds fs n with
  | nil => exact h
  | cons row rest ih =>
      obtain ⟨fid, q⟩ := row
      simp only [sweep]
      by_cases hq : fs_exists fs q = true
      · rw [if_pos hq]
        exact ih _ _ _ (fs_exists_remove_of_not fs p q h)
      · rw [if_neg hq]
        exact ih _ _ _ h

/-- Every selected backing file is gone after the sweep loop. -/
theorem sweep_fs_removed (rows : List (Nat × String))
    (ds : List DownloadRecord) (fs : FS) (n : Nat) (p : String)
    (h : p ∈ rows.map (fun e => e.2)) :
    fs_exists (sweep rows ds fs n).2.1 p = false := by
  induction rows generalizing ds fs n with
  | nil => simp at h
  | cons row rest ih =>
      obtain ⟨fid, q⟩ := row
      simp only [List.map_cons, List.mem_cons] at h
      simp only [sweep]
      rcases h with rfl | h
      · by_cases hq : fs_exists fs p = true
        · rw [if_pos hq]
          exact sweep_fs_mono _ _ _ _ _ (fs_exists_remove_self fs p)
        · rw [if_neg hq]
          exact sweep_fs_mono _ _ _ _ _ (Bool.eq_false_iff.mpr hq)
      · by_cases hq : fs_exists fs q = true
        · rw [if_pos hq]; exact ih _ _ _ h
        · rw [if_neg hq]; exact ih _ _ _ h

/-- With unique record ids, being among the selected ids is the same as
satisfying the sweeper's WHERE clause. -/
theorem mem_selected_iff (ds : List DownloadRecord) (cutoff : Int)
    (hnodup : (ds.map (fun r => r.id)).Nodup) (r : DownloadRecord)
    (hr : r ∈ ds) :
    r.id ∈ (ds.filter (expired cutoff)).map (fun r => r.id) ↔
      expired cutoff r = true := by
  constructor
  · intro h
    rcases List.mem_map.mp h with ⟨r2, hr2, hid⟩
    rcases List.mem_filter.mp hr2 with ⟨hr2mem, hr2P⟩
    have : r2 = r := List.inj_on_of_nodup_map hnodup hr2mem hr hid
    rw [← this]
    exact hr2P
  · intro h
    exact List.mem_map.mpr ⟨r, List.mem_filter.mpr ⟨hr, h⟩, rfl⟩

/-- C6: one sweeper pass, run on a catalog with unique record ids.
(a) The catalog afterwards is exactly the old catalog with every record
matching the WHERE clause (strictly older than `now` minus the retention
window and not yet deleted) marked `deleted = true` — the marking happens
unconditionally for every selected record, whether or not its backing file
existed, so a missing file does not leave a stale record — while every
other record (younger, or already deleted) is returned completely
unchanged.
(b) The reported reclaimed count is the number of selected records.
(c) Every selected record's backing file is absent afterwards (removed if
it was present).
(d) A second pass over the result with the same cutoff selects nothing —
each expired record is swept by exactly one pass. -/
theorem cleanup_sweeps_exactly_old (cfg : Config) (db : DB) (fs : FS)
    (now : Int) (hours_old : Option Nat)
    (hnodup : (db.downloads.map (fun r => r.id)).Nodup) :
    (cleanup_old_files cfg db fs now hours_old).1.downloads =
      db.downloads.map (fun r =>
        if expired (now - ((hours_old.getD cfg.AUTO_CLEANUP_HOURS : Nat) : Int)
            * 3600) r then { r with deleted := true } else r) ∧
    (cleanup_old_files cfg db fs now hours_old).2.2 =
      (db.downloads.filter (expired (now -
        ((hours_old.getD cfg.AUTO_CLEANUP_HOURS : Nat) : Int) * 3600))).length ∧
    (∀ p, p ∈ (select_old db (now -
        ((hours_old.getD cfg.AUTO_CLEANUP_HOURS : Nat) : Int) * 3600)).map
          (fun e => e.2) →
      fs_exists (cleanup_old_files cfg db fs now hours_old).2.1 p = false) ∧
    select_old (cleanup_old_files cfg db fs now hours_old).1
      (now - ((hours_old.getD cfg.AUTO_CLEANUP_HOURS : Nat) : Int) * 3600) =
        [] := by
  set cutoff : Int :=
    now - ((hours_old.getD cfg.AUTO_CLEANUP_HOURS : Nat) : Int) * 3600 with hcut
  have hdl : (cleanup_old_files cfg db fs now hours_old).1.downloads =
      db.downloads.map (fun r =>
        if expired cutoff r then { r with deleted := true } else r) := by
    show (sweep (select_old db cutoff) db.downloads fs 0).1 = _
    rw [sweep_downloads]
    unfold select_old markAll
    rw [List.map_map]
    have hmm : List.map ((fun e : Nat × String => e.1) ∘
        fun r : DownloadRecord => (r.id, r.file_path))
        (db.downloads.filter (expired cutoff)) =
        List.map (fun r : DownloadRecord => r.id)
        (db.downloads.filter (expired cutoff)) := by
      apply List.map_congr_left
      intro x _
      rfl
    rw [hmm]
    apply List.map_congr_left
    intro r hr
    have hiff := mem_selected_iff db.downloads cutoff hnodup r hr
    by_cases hP : expired cutoff r = true
    · rw [if_pos (hiff.mpr hP), if_pos hP]
    · rw [if_neg (fun hmem => hP (hiff.mp hmem)), if_neg hP]
  refine ⟨hdl, ?_, ?_, ?_⟩
  · show (sweep (select_old db cutoff) db.downloads fs 0).2.2 = _
    rw [sweep_count]
    unfold select_old
    simp
  · intro p hp
    exact sweep_fs_removed _ _ _ _ _ hp
  · unfold select_old
    rw [hdl]
    apply List.map_eq_nil_iff.mpr
    rw [List.filter_eq_nil_iff]
    intro r2 hr2
    rcases List.mem_map.mp hr2 with ⟨r, _, hrr⟩
    by_cases hP : expired cutoff r = true
    · rw [if_pos hP] at hrr
      rw [← hrr]
      simp [expired]
    · rw [if_neg hP] at hrr
      rw [← hrr]
      exact hP

/-- C6 witness: a pass over one expired record (with its backing file), one
expired record whose file is already gone, and one young record: the two
old ones are marked deleted (missing file treated as success), the young
one is untouched, the count is 2, the old backing file is removed, and a
second pass finds nothing. -/
theorem cleanup_sweeps_exactly_old_witness :
    let oldR : DownloadRecord :=
      { id := 1, user_id := 7, user_name := "u", platform := "YouTube",
        url := "https://youtu.be/a", filename := "a.mp4",
        file_path := "downloads/a.mp4", file_size := 10,
        status := .downloaded, download_time := 0, sent_time := none,
        deleted := false }
    let goneR : DownloadRecord :=
      { id := 2, user_id := 7, user_name := "u", platform := "TikTok",
        url := "https://tiktok.com/b", filename := "b.mp4",
        file_path := "downloads/b.mp4", file_size := 20,
        status := .sent, download_time := 100, sent_time := some 150,
        deleted := false }
    let youngR : DownloadRecord :=
      { id := 3, user_id := 7, user_name := "u", platform := "Reddit",
        url := "https://reddit.com/c", filename := "c.mp4",
        file_path := "downloads/c.mp4", file_size := 30,
        status := .downloaded, download_time := 9000, sent_time := none,
        deleted := false }
    let db : DB := { downloads := [oldR, goneR, youngR], next_id := 4,
                     user_stats := [] }
    let fs : FS := [("downloads/a.mp4", 10), ("downloads/c.mp4", 30)]
    (cleanup_old_files defaultConfig db fs 10000 none).1.downloads =
      [{ oldR with deleted := true }, { goneR with deleted := true },
       youngR] ∧
    (cleanup_old_files defaultConfig db fs 10000 none).2.2 = 2 ∧
    fs_exists (cleanup_old_files defaultConfig db fs 10000 none).2.1
      "downloads/a.mp4" = false ∧
    fs_exists (cleanup_old_files defaultConfig db fs 10000 none).2.1
      "downloads/c.mp4" = true ∧
    select_old (cleanup_old_files defaultConfig db fs 10000 none).1
      (10000 - 1 * 3600) = [] := by
  intro oldR goneR youngR db fs
  have h := cleanup_sweeps_exactly_old defaultConfig db fs 10000 none
    (by decide)
  refine ⟨?_, ?_, ?_, by decide, ?_⟩
  · rw [h.1]; decide
  · rw [h.2.1]; decide
  · exact h.2.2.1 "downloads/a.mp4" (by decide)
  · have h4 := h.2.2.2
    simpa using h4

/-! ### C9 -/

/-- The engine used in the C9 trace: every attempt produces the same small
file. -/
def c9engine : Engine := fun _ =>
  .ok { predicted := "downloads/v.mp4", title := "t",
        fsAfter := [("downloads/v.mp4", 5000)] }

/-- A configuration with a daily limit of 1 (the limit is configurable;
a small one keeps the trace short). -/
def c9cfg : Config :=
  { MAX_FILE_SIZE_MB := 25, MAX_DOWNLOADS_PER_DAY := 1,
    AUTO_CLEANUP_HOURS := 1 }

def c9url : String := "https://instagram.com/reel/x"

/-- C9: the admission check runs only inside `handle_url` (at URL
submission); `process_download` — the format-button path — never calls
`can_user_download` (no quota check occurs anywhere in its definition).
Concrete trace, daily limit 1: with an empty catalog the user submits the
URL twice and both submissions are admitted (both checks see count 0);
completing the first download brings `downloads_today` to 1, at which point
a fresh admission check would already deny — yet completing the second
pending menu still succeeds and brings `downloads_today` to 2, exceeding
the daily limit.  So `downloads_today <= dailyLimit` is not an invariant. -/
theorem quota_checked_only_at_submission :
    let fs0 : FS := [("downloads/v.mp4", 5000)]
    let r1 := process_download c9cfg c9engine (.ok ()) (.ok ()) (.ok ())
      emptyDB fs0 "video" "Instagram" 7 "u" c9url 3 9
    let r2 := process_download c9cfg c9engine (.ok ()) (.ok ()) (.ok ())
      r1.db fs0 "video" "Instagram" 7 "u" c9url 3 10
    handle_url c9cfg emptyDB 7 c9url 0 = .menuShown "Instagram" ∧
    r1.result = .ok 1 ∧
    dayCount r1.db 7 = 1 ∧
    (can_user_download c9cfg r1.db 7 10).1 = false ∧
    r2.result = .ok 2 ∧
    dayCount r2.db 7 = 2 ∧
    ¬ dayCount r2.db 7 ≤ c9cfg.MAX_DOWNLOADS_PER_DAY := by
  decide

/-! ### C10 -/

/-- The catalog-mutating operations reachable through the public surface
(`log_download` from a successful attempt, `mark_as_sent` after delivery,
and the sweeper pass). -/
inductive Op where
  | log (fs : FS) (uid : Nat)
      (uname platform url filename file_path : String) (today : Nat)
      (now : Int)
  | markSent (download_id : Nat) (now : Int)
  | cleanup (cfg : Config) (fs : FS) (now : Int) (hours_old : Option Nat)

/-- Apply one catalog operation. -/
def applyOp (db : DB) : Op → DB
  | .log fs uid uname platform url filename fp today now =>
      (log_download db fs uid uname platform url filename fp today now).1
  | .markSent did now => mark_as_sent db did now
  | .cleanup cfg fs now h => (cleanup_old_files cfg db fs now h).1

/-- Apply a sequence of catalog operations. -/
def applyOps (db : DB) : List Op → DB
  | [] => db
  | op :: rest => applyOps (applyOp db op) rest

/-- The sweep loop never changes a record's status. -/
theorem sweep_status (rows : List (Nat × String)) (ds : List DownloadRecord)
    (fs : FS) (n : Nat) :
    ∀ r2 ∈ (sweep rows ds fs n).1, ∃ r ∈ ds, r2.status = r.status := by
  rw [sweep_downloads]
  intro r2 hr2
  rcases List.mem_map.mp hr2 with ⟨r, hr, hrr⟩
  refine ⟨r, hr, ?_⟩
  rw [← hrr]
  by_cases h : r.id ∈ rows.map (fun e => e.1)
  · rw [if_pos h]
  · rw [if_neg h]

/-- Every operation preserves the downloaded-or-sent status invariant. -/
theorem applyOps_status (ops : List Op) :
    ∀ db : DB,
      (∀ r ∈ db.downloads, r.status = .downloaded ∨ r.status = .sent) →
      ∀ r ∈ (applyOps db ops).downloads,
        r.status = .downloaded ∨ r.status = .sent := by
  induction ops with
  | nil => intro db h; exact h
  | cons op rest ih =>
      intro db h
      apply ih
      cases op with
      | log fs uid uname platform url filename fp today now =>
          intro r hr
          rw [show (applyOp db (.log fs uid uname platform url filename fp
              today now)).downloads = _ from
            log_download_downloads db fs uid uname platform url filename fp
              today now] at hr
          rcases List.mem_append.mp hr with hr | hr
          · exact h r hr
          · rw [List.mem_singleton.mp hr]
            exact Or.inl rfl
      | markSent did now =>
          intro r hr
          rcases List.mem_map.mp hr with ⟨r0, hr0, hrr⟩
          rw [← hrr]
          by_cases hid : r0.id = did
          · rw [if_pos hid]
            exact Or.inr rfl
          · rw [if_neg hid]
            exact h r0 hr0
      | cleanup cfg fs now hrs =>
          intro r hr
          have hs : r ∈ (sweep (select_old db (now -
              ((hrs.getD cfg.AUTO_CLEANUP_HOURS : Nat) : Int) * 3600))
              db.downloads fs 0).1 := hr
          rcases sweep_status _ _ _ _ r hs with ⟨r0, hr0, hst⟩
          rw [hst]
          exact h r0 hr0

/-- C10: although the `downloads` table schema declares the column default
status `pending`, no reachable record ever has it: starting from the
freshly initialised catalog, after any sequence of the public operations
every record's status is `downloaded` or `sent` — the only insertion path
(`log_download`) inserts `downloaded`, the only status transition
(`mark_as_sent`) sets `sent`, and the sweeper never touches status. -/
theorem reachable_status_never_pending (ops : List Op) :
    ∀ r ∈ (applyOps emptyDB ops).downloads,
      r.status ≠ schemaDefaultStatus ∧
      (r.status = .downloaded ∨ r.status = .sent) := by
  intro r hr
  have h := applyOps_status ops emptyDB (by intro r hr; cases hr) r hr
  refine ⟨?_, h⟩
  rcases h with h | h <;> rw [h] <;> intro hc <;> cases hc

/-- C10 witness: the record created by one logged download has status
`downloaded`, which is neither the schema default `pending` nor outside
the reachable set. -/
theorem reachable_status_never_pending_witness :
    ({ id := 1, user_id := 7, user_name := "u", platform := "YouTube",
       url := "https://youtu.be/a", filename := "a.mp4",
       file_path := "downloads/a.mp4", file_size := 10,
       status := .downloaded, download_time := 9, sent_time := none,
       deleted := false } : DownloadRecord) ∈
      (applyOps emptyDB [Op.log [("downloads/a.mp4", 10)] 7 "u" "YouTube"
        "https://youtu.be/a" "a.mp4" "downloads/a.mp4" 3 9]).downloads ∧
    (({ id := 1, user_id := 7, user_name := "u", platform := "YouTube",
        url := "https://youtu.be/a", filename := "a.mp4",
        file_path := "downloads/a.mp4", file_size := 10,
        status := .downloaded, download_time := 9, sent_time := none,
        deleted := false } : DownloadRecord).status ≠ schemaDefaultStatus ∧
      (({ id := 1, user_id := 7, user_name := "u", platform := "YouTube",
          url := "https://youtu.be/a", filename := "a.mp4",
          file_path := "downloads/a.mp4", file_size := 10,
          status := .downloaded, download_time := 9, sent_time := none,
          deleted := false } : DownloadRecord).status = .downloaded ∨
        ({ id := 1, user_id := 7, user_name := "u", platform := "YouTube",
           url := "https://youtu.be/a", filename := "a.mp4",
           file_path := "downloads/a.mp4", file_size := 10,
           status := .downloaded, download_time := 9, sent_time := none,
           deleted := false } : DownloadRecord).status = .sent)) := by
  refine ⟨by decide, ?_⟩
  exact reachable_status_never_pending
    [Op.log [("downloads/a.mp4", 10)] 7 "u" "YouTube" "https://youtu.be/a"
      "a.mp4" "downloads/a.mp4" 3 9] _ (by decide)

end Bot
